import Mathlib

/-!
Verification development for the `fx_library` backtest engine
(`src/fx_library/backtest.py`).

The engine is embedded shallowly:

* prices, spreads and pip sizes are rationals (`ℚ`), so every operation of
  the source is exact;
* Python's `round(x, 2)` / `round(x, 0)` (round-half-to-even) is `round2` /
  `round0` below, built from the half-even integer rounding `rhe`;
* `None` fields of a trade order become `Option` fields;
* timestamps are abstract naturals ordered like the candle series, and the
  `datetime.hour` attribute is a separate `hour` field of a candle;
* the direction decision function (an external plug-in receiving the row and
  keyword parameters) is abstracted to a function from a candle to a
  direction, its ignored diagnostics dropped;
* pandas / numpy behaviour relevant to the claims is modelled exactly:
  `npDiv` returns `none` where numpy integer true-division of `0 / 0`
  produces NaN, and the per-bucket aggregation of `Performance` becomes
  list filtering and counting;
* the maximum position count (a Python int used only as an upper bound on a
  list length) is a natural number, profit and loss (pip counts) are
  integers.

The mutable dict-of-lists `self.orders = {ASK: [], BID: []}` together with
`self.settlements` becomes `BookState`.  The descending-index pop loop of
`Backtest.__settlement` processes each order exactly once and appends the
settled ones in descending index order, which `settleList` reproduces by
keeping the still-open orders in place and appending the reversed list of
newly settled ones.
-/

namespace FxLibrary

/-- `Direction` of a trade: buy (`ASK` = 1), none (`ZERO` = 0), sell
(`BID` = -1); `backtest.py` lines 15-20. -/
inductive Direction where
  | ASK
  | ZERO
  | BID
deriving DecidableEq, Repr

/-- The configuration fields of `backtest.Parameter` that the engine reads
(lines 23-70); column-name bindings and the sweep metadata play no role in
the engine's arithmetic and are resolved away by the embedding. -/
structure Parameter where
  trade_start_hour : ℕ
  trade_end_hour   : ℕ
  position_count   : ℕ
  profit           : ℤ
  loss             : ℤ
  trail_stop       : Bool
  spread_threshold : ℚ
  pip              : ℚ
  reverse_order    : Bool
deriving DecidableEq

/-- One row of the candle series: the columns the engine reads, with the
derived `hour` of the timestamp carried explicitly. -/
structure Candle where
  time       : ℕ
  hour       : ℕ
  open_price : ℚ
  high_price : ℚ
  low_price  : ℚ
  close_price : ℚ
  spread     : ℚ
deriving DecidableEq

/-- `backtest.Order` (lines 73-96): a position, open while the settlement
fields are `none`. -/
structure Order where
  order_time       : ℕ
  order_price      : ℚ
  spread           : ℚ
  direction        : Direction
  profit_price     : ℚ
  loss_price       : ℚ
  settlement_time  : Option ℕ
  settlement_price : Option ℚ
  result           : Option ℚ
deriving DecidableEq

/-- `backtest.Settlement` (lines 99-112): the bar data handed to the
settlement checks. -/
structure Settlement where
  open_price : ℚ
  high_price : ℚ
  low_price  : ℚ
  spread     : ℚ
deriving DecidableEq

/-- Round-half-to-even to an integer, the convention of Python's `round`. -/
def rhe (x : ℚ) : ℤ :=
  if x - ⌊x⌋ < 1 / 2 then ⌊x⌋
  else if 1 / 2 < x - ⌊x⌋ then ⌊x⌋ + 1
  else if ⌊x⌋ % 2 = 0 then ⌊x⌋ else ⌊x⌋ + 1

/-- Python's `round(x, 2)`. -/
def round2 (x : ℚ) : ℚ := (rhe (100 * x) : ℚ) / 100

/-- Python's `round(x, 0)`. -/
def round0 (x : ℚ) : ℚ := (rhe x : ℚ)

/-- The open-position book and the settlement history: `self.orders`
(a dict keyed `ASK` then `BID`) and `self.settlements` of `Backtest`. -/
structure BookState where
  ask : List Order
  bid : List Order
  settlements : List Order
deriving DecidableEq

/-- The open-order list of one direction, `self.orders[direction]`.  The
engine only ever uses the `ASK` and `BID` keys. -/
def ordersOf (st : BookState) (dir : Direction) : List Order :=
  if dir = Direction.ASK then st.ask else st.bid

/-- The `Order(...)` construction of `Backtest.__order` (lines 203-226):
a buy enters at `close + spread`, a sell at `close`; the target price adds
`profit * pip` in the trade's favourable direction and the stop price
subtracts `loss * pip` from it. -/
def mkOrder (p : Parameter) (c : Candle) (dir : Direction) : Order :=
  { order_time   := c.time
    order_price  :=
      if dir = Direction.ASK then c.close_price + c.spread else c.close_price
    spread       := c.spread
    direction    := dir
    profit_price :=
      (if dir = Direction.ASK then c.close_price + c.spread else c.close_price)
        + (if dir = Direction.ASK then (p.profit : ℚ) * p.pip
           else -((p.profit : ℚ) * p.pip))
    loss_price   :=
      (if dir = Direction.ASK then c.close_price + c.spread else c.close_price)
        + (if dir = Direction.ASK then -((p.loss : ℚ) * p.pip)
           else (p.loss : ℚ) * p.pip)
    settlement_time  := none
    settlement_price := none
    result           := none }

/-- `Backtest.__order` (lines 189-229): reject silently when the direction's
open count has reached `position_count`, otherwise append the new order. -/
def orderStep (p : Parameter) (c : Candle) (dir : Direction)
    (st : BookState) : BookState :=
  if p.position_count ≤ (ordersOf st dir).length then st
  else if dir = Direction.ASK then { st with ask := st.ask ++ [mkOrder p c dir] }
  else { st with bid := st.bid ++ [mkOrder p c dir] }

/-- `Backtest.__all_close` (lines 270-296): mark-to-open settlement.  A buy
settles at the bar open, a sell at the bar open plus spread; the pip result
is the rounded price delta, with no cap. -/
def allClose (p : Parameter) (s : Settlement) (o : Order) : Order :=
  if o.direction = Direction.ASK then
    { o with settlement_price := some s.open_price
             result := some (round2 ((s.open_price - o.order_price) / p.pip)) }
  else
    { o with settlement_price := some (s.open_price + s.spread)
             result := some (round2
               ((o.order_price - (s.open_price + s.spread)) / p.pip)) }

/-- The cap of `Backtest.__loss_fixed` lines 339-342: a rounded pip result
whose absolute value reaches the configured `loss` is replaced by
`loss * -1`. -/
def lossClamp (p : Parameter) (r : ℚ) : ℚ :=
  if |r| ≥ (p.loss : ℚ) then -(p.loss : ℚ) else r

/-- `Backtest.__loss_fixed` (lines 298-344): skipped for a settled order;
a buy is stopped out when the bar low reaches the stop price, a sell when
the bar high plus spread reaches it; the pip result is computed from the
stop price and capped by `lossClamp`. -/
def lossFixed (p : Parameter) (s : Settlement) (o : Order) : Order :=
  if o.result.isSome then o
  else if o.direction = Direction.ASK then
    if o.loss_price ≥ s.low_price then
      { o with settlement_price := some s.low_price
               result := some (lossClamp p
                 (round2 ((o.loss_price - o.order_price) / p.pip))) }
    else o
  else
    if o.loss_price ≤ s.high_price + s.spread then
      { o with settlement_price := some (s.high_price + s.spread)
               result := some (lossClamp p
                 (round2 ((o.order_price - o.loss_price) / p.pip))) }
    else o

/-- `Backtest.__profit_fixed` (lines 346-377): skipped for a settled order;
a buy takes profit when the bar high exceeds the target price, a sell when
the bar low plus spread is below it; the result is the flat `profit`. -/
def profitFixed (p : Parameter) (s : Settlement) (o : Order) : Order :=
  if o.result.isSome then o
  else if o.direction = Direction.ASK then
    if o.profit_price < s.high_price then
      { o with settlement_price := some s.high_price
               result := some (p.profit : ℚ) }
    else o
  else
    if o.profit_price > s.low_price + s.spread then
      { o with settlement_price := some (s.low_price + s.spread)
               result := some (p.profit : ℚ) }
    else o

/-- `Backtest.__calc_trail_stop` (lines 379-415): skipped for a settled
order or when `trail_stop` is off; a buy stop ratchets up to
`high + spread - loss * pip`, a sell stop down to `low + loss * pip`. -/
def calcTrailStop (p : Parameter) (s : Settlement) (o : Order) : Order :=
  if o.result.isSome then o
  else if p.trail_stop = false then o
  else if o.direction = Direction.ASK then
    if o.loss_price < s.high_price + s.spread - (p.loss : ℚ) * p.pip then
      { o with loss_price := s.high_price + s.spread - (p.loss : ℚ) * p.pip }
    else o
  else
    if o.loss_price > s.low_price + (p.loss : ℚ) * p.pip then
      { o with loss_price := s.low_price + (p.loss : ℚ) * p.pip }
    else o

/-- The per-order body of the loop of `Backtest.__settlement`
(lines 247-262): forced closure first (only when `forceAll`), then
loss-fixed, profit-fixed and the trailing-stop update, each later phase
seeing the state the earlier one left. -/
def processOrder (p : Parameter) (forceAll : Bool) (s : Settlement)
    (o : Order) : Order :=
  calcTrailStop p s
    (profitFixed p s
      (lossFixed p s
        (if forceAll then allClose p s o else o)))

/-- One direction's list under `Backtest.__settlement` lines 248-268: every
order is processed once; the ones whose `result` is now set are stamped with
the bar time and moved out in descending index order (the pop loop), the
rest stay in place.  Returns (still-open, newly-settled). -/
def settleList (p : Parameter) (forceAll : Bool) (s : Settlement) (t : ℕ)
    (orders : List Order) : List Order × List Order :=
  let processed := orders.map (processOrder p forceAll s)
  (processed.filter (fun o => o.result.isNone),
   ((processed.filter (fun o => o.result.isSome)).reverse).map
     (fun o => { o with settlement_time := some t }))

/-- The `Settlement(...)` view of a bar built at the top of
`Backtest.__settlement` (lines 241-245). -/
def barView (c : Candle) : Settlement :=
  { open_price := c.open_price, high_price := c.high_price
    low_price := c.low_price, spread := c.spread }

/-- `Backtest.__settlement` (lines 231-268): build the bar's `Settlement`
view and sweep the `ASK` list then the `BID` list (the dict's key order). -/
def settlementStep (p : Parameter) (forceAll : Bool) (c : Candle)
    (st : BookState) : BookState :=
  { ask := (settleList p forceAll (barView c) c.time st.ask).1
    bid := (settleList p forceAll (barView c) c.time st.bid).1
    settlements := st.settlements
      ++ (settleList p forceAll (barView c) c.time st.ask).2
      ++ (settleList p forceAll (barView c) c.time st.bid).2 }

/-- The loop body of `Backtest.run` (lines 152-183): settle (forced when the
bar hour has reached `trade_end_hour`); skip ordering when the spread
exceeds the threshold; otherwise, inside the session window, ask the
direction function and place the order, plus the mirrored one under
`reverse_order`. -/
def barStep (p : Parameter) (dirFn : Candle → Direction) (st : BookState)
    (c : Candle) : BookState :=
  let st1 := settlementStep p
    (if p.trade_end_hour ≤ c.hour then true else false) c st
  if c.spread > p.spread_threshold then st1
  else if p.trade_start_hour ≤ c.hour ∧ c.hour < p.trade_end_hour then
    if dirFn c = Direction.ZERO then st1
    else
      let st2 := orderStep p c (dirFn c) st1
      if p.reverse_order then
        orderStep p c
          (if dirFn c = Direction.ASK then Direction.BID else Direction.ASK)
          st2
      else st2
  else st1

/-- `Backtest.run` (lines 143-187): fold the candle series through the loop
body starting from an empty book.  `result_df`, when the history is
non-empty, is the `settlements` list row for row. -/
def runBacktest (p : Parameter) (dirFn : Candle → Direction)
    (candles : List Candle) : BookState :=
  candles.foldl (barStep p dirFn) { ask := [], bid := [], settlements := [] }

def pW1 : Parameter :=
  { trade_start_hour := 0, trade_end_hour := 24, position_count := 1,
    profit := 100, loss := 100, trail_stop := false,
    spread_threshold := 1, pip := 1 / 100, reverse_order := false }

def sW1 : Settlement :=
  { open_price := 100, high_price := 1015 / 10, low_price := 985 / 10,
    spread := 0 }

def oW1 : Order :=
  { order_time := 0, order_price := 100, spread := 0,
    direction := Direction.ASK, profit_price := 101, loss_price := 99,
    settlement_time := none, settlement_price := none, result := none }

def sW1b : Settlement :=
  { open_price := 100, high_price := 1015 / 10, low_price := 97,
    spread := 3 / 1000 }

def oW1b : Order :=
  { order_time := 0, order_price := 100, spread := 3 / 1000,
    direction := Direction.BID, profit_price := 99, loss_price := 101,
    settlement_time := none, settlement_price := none, result := none }

def pW2 : Parameter := pW1

def sW2 : Settlement :=
  { open_price := 90, high_price := 1011 / 10, low_price := 88,
    spread := 0 }

def oW2 : Order := oW1

def cW2 : Candle :=
  { time := 5, hour := 23, open_price := 90, high_price := 1011 / 10,
    low_price := 88, close_price := 90, spread := 0 }

def pX3 : Parameter :=
  { trade_start_hour := 0, trade_end_hour := 24, position_count := 1,
    profit := 100, loss := 100, trail_stop := false,
    spread_threshold := 1, pip := 1 / 100, reverse_order := false }

def cX3 : Candle :=
  { time := 0, hour := 1, open_price := 100, high_price := 100,
    low_price := 100, close_price := 100, spread := 3 / 1000 }

def pW4 : Parameter := pX3

def sW4 : Settlement :=
  { open_price := 100, high_price := 100, low_price := 97, spread := 0 }

def oW4 : Order :=
  { order_time := 0, order_price := 100, spread := 0,
    direction := Direction.ASK, profit_price := 102, loss_price := 98,
    settlement_time := none, settlement_price := none, result := none }

def pX6 : Parameter :=
  { trade_start_hour := 0, trade_end_hour := 24, position_count := 1,
    profit := 100, loss := 100, trail_stop := true,
    spread_threshold := 1, pip := 1 / 100, reverse_order := false }

def sX6 : Settlement :=
  { open_price := 100, high_price := 1001 / 10, low_price := 999 / 10,
    spread := 3 / 1000 }

def oX6 : Order :=
  { order_time := 0, order_price := 100, spread := 3 / 1000,
    direction := Direction.ASK, profit_price := 101, loss_price := 99,
    settlement_time := none, settlement_price := none, result := none }

def oX6b : Order :=
  { order_time := 0, order_price := 100, spread := 3 / 1000,
    direction := Direction.BID, profit_price := 99, loss_price := 101,
    settlement_time := none, settlement_price := none, result := none }

def pW5 : Parameter := pX3

def dW5 : Candle → Direction := fun _ => Direction.ASK

def cW5 : Candle :=
  { time := 1, hour := 1, open_price := 100, high_price := 100,
    low_price := 100, close_price := 100, spread := 0 }

def pA7 : Parameter :=
  { trade_start_hour := 0, trade_end_hour := 24, position_count := 1,
    profit := 100, loss := 100, trail_stop := false,
    spread_threshold := 1, pip := 1 / 100, reverse_order := false }

def dA7 : Candle → Direction := fun _ => Direction.ASK

def cA71 : Candle :=
  { time := 1, hour := 1, open_price := 100, high_price := 100,
    low_price := 100, close_price := 100, spread := 0 }

def cA72 : Candle :=
  { time := 2, hour := 1, open_price := 100, high_price := 100,
    low_price := 989 / 10, close_price := 100, spread := 0 }

def pX9 : Parameter :=
  { trade_start_hour := 0, trade_end_hour := 24, position_count := 2,
    profit := 100, loss := 100, trail_stop := false,
    spread_threshold := 1, pip := 1 / 100, reverse_order := false }

def dX9 : Candle → Direction :=
  fun c => if c.time ≤ 2 then Direction.ASK else Direction.ZERO

def cX91 : Candle :=
  { time := 1, hour := 1, open_price := 100, high_price := 100,
    low_price := 100, close_price := 100, spread := 0 }

def cX92 : Candle :=
  { time := 2, hour := 1, open_price := 100, high_price := 100,
    low_price := 100, close_price := 100, spread := 0 }

def cX93 : Candle :=
  { time := 3, hour := 1, open_price := 100, high_price := 100,
    low_price := 98, close_price := 100, spread := 0 }

/-- The settlement timestamp of a settled history row (every appended row
carries `some` bar time). -/
def settleTimeOf (o : Order) : ℕ := o.settlement_time.getD 0

structure Trade where
  year   : ℕ
  month  : ℕ
  week   : ℕ
  day    : ℕ
  result : ℚ
deriving DecidableEq

/-- `self.df[self.df['result'] >= 0]['result'].count()` (line 444). -/
def profit_count (h : List Trade) : ℕ :=
  (h.filter fun t => decide (t.result ≥ 0)).length

/-- `self.df[self.df['result'] < 0]['result'].count()` (line 445). -/
def loss_count (h : List Trade) : ℕ :=
  (h.filter fun t => decide (t.result < 0)).length

/-- `total_count = profit_count + loss_count` (line 446). -/
def total_count (h : List Trade) : ℕ := profit_count h + loss_count h

/-- numpy true-division of two integer counts: `none` models the NaN (with
RuntimeWarning) that numpy produces for 0 / 0 instead of raising. -/
def npDiv (a b : ℚ) : Option ℚ :=
  if b = 0 then none else some (a / b)

/-- `profit_rate = round((profit_count / total_count) * 100, 0)` (line 449);
NaN propagates through the multiplication and Python's `round`. -/
def profit_rate (h : List Trade) : Option ℚ :=
  (npDiv (profit_count h) (total_count h)).map fun q => round0 (q * 100)

/-- `self.df['result'].sum()` (line 452). -/
def result_sum (h : List Trade) : ℚ := (h.map fun t => t.result).sum

/-- Bucket keys of `Performance.performance` lines 455-458: `['year']`,
`['year','month']`, `['year','week']`, `['year','month','day']`. -/
def yearKey (t : Trade) : List ℕ := [t.year]

def monthKey (t : Trade) : List ℕ := [t.year, t.month]

def weekKey (t : Trade) : List ℕ := [t.year, t.week]

def dayKey (t : Trade) : List ℕ := [t.year, t.month, t.day]

/-- The rows of one groupby bucket of `Performance.__detail` (line 484). -/
def bucket (key : Trade → List ℕ) (k : List ℕ) (h : List Trade) :
    List Trade :=
  h.filter fun t => decide (key t = k)

/-- Per-bucket win count of `Performance.__detail` (lines 485, 489). -/
def detail_profit_count (key : Trade → List ℕ) (k : List ℕ)
    (h : List Trade) : ℕ :=
  profit_count (bucket key k h)

/-- Per-bucket loss count of `Performance.__detail` (lines 486, 490). -/
def detail_loss_count (key : Trade → List ℕ) (k : List ℕ)
    (h : List Trade) : ℕ :=
  loss_count (bucket key k h)

def tW10 : Trade :=
  { year := 2024, month := 1, week := 1, day := 1, result := 0 }

/-! ### Rounding lemmas -/

theorem rhe_int (n : ℤ) (x : ℚ) (h : x = (n : ℚ)) : rhe x = n := by
  subst h
  unfold rhe
  simp

theorem le_rhe (m : ℤ) (x : ℚ) (h : (m : ℚ) ≤ x) : m ≤ rhe x := by
  have hf : m ≤ ⌊x⌋ := Int.le_floor.mpr h
  unfold rhe
  split_ifs <;> omega

theorem rhe_le (m : ℤ) (x : ℚ) (h : x ≤ (m : ℚ)) : rhe x ≤ m := by
  have hf : ⌊x⌋ ≤ m := by
    have h2 := Int.floor_le_floor h
    rwa [Int.floor_intCast] at h2
  have hfl : (⌊x⌋ : ℚ) ≤ x := Int.floor_le x
  unfold rhe
  split_ifs with h1 h2 h3
  · exact hf
  · by_contra hc
    have hm : m ≤ ⌊x⌋ := by omega
    have hmq : (m : ℚ) ≤ (⌊x⌋ : ℚ) := by exact_mod_cast hm
    linarith
  · exact hf
  · by_contra hc
    have hm : m ≤ ⌊x⌋ := by omega
    have hmq : (m : ℚ) ≤ (⌊x⌋ : ℚ) := by exact_mod_cast hm
    push_neg at h1
    linarith

theorem round2_le (m : ℤ) (x : ℚ) (h : x ≤ (m : ℚ)) : round2 x ≤ (m : ℚ) := by
  have h1 : 100 * x ≤ ((100 * m : ℤ) : ℚ) := by push_cast; linarith
  have h2 : rhe (100 * x) ≤ 100 * m := rhe_le _ _ h1
  have h3 : (rhe (100 * x) : ℚ) ≤ ((100 * m : ℤ) : ℚ) := by exact_mod_cast h2
  unfold round2
  rw [div_le_iff₀ (by norm_num : (0 : ℚ) < 100)]
  push_cast at h3 ⊢
  linarith

theorem le_round2 (m : ℤ) (x : ℚ) (h : (m : ℚ) ≤ x) : (m : ℚ) ≤ round2 x := by
  have h1 : ((100 * m : ℤ) : ℚ) ≤ 100 * x := by push_cast; linarith
  have h2 : 100 * m ≤ rhe (100 * x) := le_rhe _ _ h1
  have h3 : ((100 * m : ℤ) : ℚ) ≤ (rhe (100 * x) : ℚ) := by exact_mod_cast h2
  unfold round2
  rw [le_div_iff₀ (by norm_num : (0 : ℚ) < 100)]
  push_cast at h3 ⊢
  linarith

theorem lossClamp_round2 (p : Parameter) (x : ℚ) (h : (p.loss : ℚ) ≤ |x|) :
    lossClamp p (round2 x) = -(p.loss : ℚ) := by
  unfold lossClamp
  have hmain : (p.loss : ℚ) ≤ |round2 x| := by
    rcases le_abs.mp h with h1 | h1
    · exact le_trans (le_round2 p.loss x h1) (le_abs_self _)
    · have hx : x ≤ ((-p.loss : ℤ) : ℚ) := by push_cast; linarith
      have h2 := round2_le (-p.loss) x hx
      have h3 : round2 x ≤ -(p.loss : ℚ) := by push_cast at h2; linarith
      exact le_trans (by linarith) (neg_le_abs (round2 x))
  rw [if_pos hmain]

/-! ### Per-phase structural lemmas -/

theorem allClose_result_isSome (p : Parameter) (s : Settlement) (o : Order) :
    ((allClose p s o).result).isSome = true := by
  unfold allClose
  split <;> rfl

theorem lossFixed_skip (p : Parameter) (s : Settlement) (o : Order)
    (h : o.result.isSome = true) : lossFixed p s o = o := by
  unfold lossFixed
  rw [if_pos h]

theorem profitFixed_skip (p : Parameter) (s : Settlement) (o : Order)
    (h : o.result.isSome = true) : profitFixed p s o = o := by
  unfold profitFixed
  rw [if_pos h]

theorem calcTrailStop_skip (p : Parameter) (s : Settlement) (o : Order)
    (h : o.result.isSome = true) : calcTrailStop p s o = o := by
  unfold calcTrailStop
  rw [if_pos h]

theorem processOrder_true (p : Parameter) (s : Settlement) (o : Order) :
    processOrder p true s o = allClose p s o := by
  unfold processOrder
  rw [if_pos rfl, lossFixed_skip p s _ (allClose_result_isSome p s o),
    profitFixed_skip p s _ (allClose_result_isSome p s o),
    calcTrailStop_skip p s _ (allClose_result_isSome p s o)]

theorem lossFixed_closes_ask (p : Parameter) (s : Settlement) (o : Order)
    (ho : o.result = none) (hd : o.direction = Direction.ASK)
    (hl : s.low_price ≤ o.loss_price) :
    lossFixed p s o =
      { o with settlement_price := some s.low_price
               result := some (lossClamp p
                 (round2 ((o.loss_price - o.order_price) / p.pip))) } := by
  unfold lossFixed
  rw [ho]
  simp [hd, ge_iff_le, hl]

theorem lossFixed_closes_bid (p : Parameter) (s : Settlement) (o : Order)
    (ho : o.result = none) (hd : o.direction ≠ Direction.ASK)
    (hl : o.loss_price ≤ s.high_price + s.spread) :
    lossFixed p s o =
      { o with settlement_price := some (s.high_price + s.spread)
               result := some (lossClamp p
                 (round2 ((o.order_price - o.loss_price) / p.pip))) } := by
  unfold lossFixed
  rw [ho]
  simp [hd, hl]

/-! ### Claim C1: settlement priority inside one bar -/

/-- Claim C1: within one bar the settlement checks run in the fixed order
forced-closure, loss-fixed, profit-fixed, trailing-stop with first match
winning (the order of `processOrder`), and on a non-forced bar where both
the stop-loss and the take-profit thresholds of a still-open position are
crossed — for a buy, the bar low reaching the stop and the bar high
exceeding the target; for a sell, the bar high plus spread reaching the
stop and the bar low plus spread lying below the target — the position
ends exactly in the loss-fixed state, settled at the loss boundary, and
profit-fixed leaves that state untouched, so the position transitions only
once. -/
theorem fx_c1 (p : Parameter) (s : Settlement) (o : Order)
    (ho : o.result = none) :
    (o.direction = Direction.ASK → s.low_price ≤ o.loss_price →
      o.profit_price < s.high_price →
      processOrder p false s o = lossFixed p s o ∧
      profitFixed p s (lossFixed p s o) = lossFixed p s o ∧
      ((lossFixed p s o).result).isSome = true ∧
      (lossFixed p s o).settlement_price = some s.low_price) ∧
    (o.direction ≠ Direction.ASK → o.loss_price ≤ s.high_price + s.spread →
      o.profit_price > s.low_price + s.spread →
      processOrder p false s o = lossFixed p s o ∧
      profitFixed p s (lossFixed p s o) = lossFixed p s o ∧
      ((lossFixed p s o).result).isSome = true ∧
      (lossFixed p s o).settlement_price =
        some (s.high_price + s.spread)) := by
  constructor
  · intro hd hl _hp
    have hclose := lossFixed_closes_ask p s o ho hd hl
    have hsome : ((lossFixed p s o).result).isSome = true := by
      rw [hclose]
      rfl
    have hskip : profitFixed p s (lossFixed p s o) = lossFixed p s o :=
      profitFixed_skip p s _ hsome
    refine ⟨?_, hskip, hsome, by rw [hclose]⟩
    unfold processOrder
    rw [if_neg (by simp), hskip, calcTrailStop_skip p s _ hsome]
  · intro hd hl _hp
    have hclose := lossFixed_closes_bid p s o ho hd hl
    have hsome : ((lossFixed p s o).result).isSome = true := by
      rw [hclose]
      rfl
    have hskip : profitFixed p s (lossFixed p s o) = lossFixed p s o :=
      profitFixed_skip p s _ hsome
    refine ⟨?_, hskip, hsome, by rw [hclose]⟩
    unfold processOrder
    rw [if_neg (by simp), hskip, calcTrailStop_skip p s _ hsome]

/-- Witness for C1: a buy (stop 99, target 101) on a bar with low 98.5 and
high 101.5, and a sell (stop 101, target 99) on a bar with high 101.5, low
97 and spread 0.003 — both thresholds crossed in each case, both positions
settled by loss-fixed at the loss boundary. -/
theorem fx_c1_witness :
    (sW1.low_price ≤ oW1.loss_price ∧ oW1.profit_price < sW1.high_price ∧
     (processOrder pW1 false sW1 oW1 = lossFixed pW1 sW1 oW1 ∧
      profitFixed pW1 sW1 (lossFixed pW1 sW1 oW1) = lossFixed pW1 sW1 oW1 ∧
      ((lossFixed pW1 sW1 oW1).result).isSome = true ∧
      (lossFixed pW1 sW1 oW1).settlement_price = some sW1.low_price)) ∧
    (oW1b.loss_price ≤ sW1b.high_price + sW1b.spread ∧
     oW1b.profit_price > sW1b.low_price + sW1b.spread ∧
     (processOrder pW1 false sW1b oW1b = lossFixed pW1 sW1b oW1b ∧
      profitFixed pW1 sW1b (lossFixed pW1 sW1b oW1b) =
        lossFixed pW1 sW1b oW1b ∧
      ((lossFixed pW1 sW1b oW1b).result).isSome = true ∧
      (lossFixed pW1 sW1b oW1b).settlement_price =
        some (sW1b.high_price + sW1b.spread))) :=
  ⟨⟨by norm_num [sW1, oW1], by norm_num [sW1, oW1],
    (fx_c1 pW1 sW1 oW1 rfl).1 rfl (by norm_num [sW1, oW1])
      (by norm_num [sW1, oW1])⟩,
   ⟨by norm_num [sW1b, oW1b], by norm_num [sW1b, oW1b],
    (fx_c1 pW1 sW1b oW1b rfl).2 (by decide) (by norm_num [sW1b, oW1b])
      (by norm_num [sW1b, oW1b])⟩⟩

/-! ### Claim C2: forced closure overrides everything -/

theorem settleList_true_keep (p : Parameter) (s : Settlement) (t : ℕ)
    (l : List Order) : (settleList p true s t l).1 = [] := by
  unfold settleList
  simp only [List.filter_eq_nil_iff]
  intro o ho
  rcases List.mem_map.mp ho with ⟨a, _, rfl⟩
  rw [processOrder_true]
  simp [Option.isNone_iff_eq_none]
  intro hcontra
  have := allClose_result_isSome p s a
  rw [hcontra] at this
  exact Bool.false_ne_true this

/-- Claim C2: with `forceCloseAll` true every open position is settled by
mark-to-open pricing that bar — `processOrder` collapses to `allClose`, so
the loss/profit thresholds are irrelevant even when crossed — a buy result
is `round2 ((open - entry) / pip)` with no cap applied, a sell result is
`round2 ((entry - (open + spread)) / pip)`, and the whole book empties. -/
theorem fx_c2 (p : Parameter) (c : Candle) (st : BookState) (s : Settlement)
    (o : Order) :
    processOrder p true s o = allClose p s o ∧
    (o.direction = Direction.ASK →
      (processOrder p true s o).result =
        some (round2 ((s.open_price - o.order_price) / p.pip))) ∧
    (o.direction ≠ Direction.ASK →
      (processOrder p true s o).result =
        some (round2 ((o.order_price - (s.open_price + s.spread)) / p.pip))) ∧
    (settlementStep p true c st).ask = [] ∧
    (settlementStep p true c st).bid = [] := by
  refine ⟨processOrder_true p s o, ?_, ?_, ?_, ?_⟩
  · intro hd
    rw [processOrder_true]
    unfold allClose
    rw [if_pos hd]
  · intro hd
    rw [processOrder_true]
    unfold allClose
    rw [if_neg hd]
  · show (settleList p true _ c.time st.ask).1 = []
    exact settleList_true_keep p _ c.time st.ask
  · show (settleList p true _ c.time st.bid).1 = []
    exact settleList_true_keep p _ c.time st.bid

/-- Witness for C2: a gap-down force-close bar (open 90, entry 100, loss
cap 100 pips) on which the mark-to-open result is the uncapped -1000
pips, even though the stop threshold is also crossed. -/
theorem fx_c2_witness :
    (processOrder pW2 true sW2 oW2).result =
      some (round2 ((sW2.open_price - oW2.order_price) / pW2.pip)) ∧
    round2 ((sW2.open_price - oW2.order_price) / pW2.pip) = -1000 ∧
    sW2.low_price ≤ oW2.loss_price :=
  ⟨(fx_c2 pW2 cW2 ⟨[], [], []⟩ sW2 oW2).2.1 rfl,
   by
    rw [show ((sW2.open_price - oW2.order_price) / pW2.pip) = ((-1000 : ℤ) : ℚ)
        by norm_num [sW2, oW2, oW1, pW2, pW1]]
    unfold round2
    rw [rhe_int (-100000) _ (by norm_num)]
    norm_num,
   by norm_num [sW2, oW2, oW1]⟩

/-! ### Claim C3: entry pricing (corrected: the code adds the raw spread) -/

/-- Counterexample to C3: with close 100, spread 0.003 and pip 0.01 the
code's buy entry price is close + spread = 100.003 (matching the test
fixtures of `test_backtest.py`), not the claimed
close + spread * pip * 0.1 = 100.000003. -/
theorem fx_c3_counterexample :
    (mkOrder pX3 cX3 Direction.ASK).order_price =
      cX3.close_price + cX3.spread ∧
    (mkOrder pX3 cX3 Direction.ASK).order_price ≠
      cX3.close_price + cX3.spread * pX3.pip * (1 / 10) := by
  constructor
  · rfl
  · show (100 : ℚ) + 3 / 1000 ≠ 100 + (3 / 1000) * (1 / 100) * (1 / 10)
    norm_num

/-- Claim C3 amended: a buy position enters at the bar close plus the raw
bar spread (the spread column value, already in price units), and a sell
position enters at the bar close exactly. -/
theorem fx_c3_amended (p : Parameter) (c : Candle) :
    (mkOrder p c Direction.ASK).order_price = c.close_price + c.spread ∧
    (mkOrder p c Direction.BID).order_price = c.close_price :=
  ⟨rfl, rfl⟩

/-! ### Claim C4: loss clamp -/

/-- Claim C4: whenever the loss-fixed rule fires and the absolute raw pip
result — (stop - entry) / pip for a buy, (entry - stop) / pip for a sell —
is at least the configured loss, the recorded result is exactly the
negated loss. -/
theorem fx_c4 (p : Parameter) (s : Settlement) (o : Order)
    (ho : o.result = none) :
    (o.direction = Direction.ASK → s.low_price ≤ o.loss_price →
      (p.loss : ℚ) ≤ |(o.loss_price - o.order_price) / p.pip| →
      (lossFixed p s o).result = some (-(p.loss : ℚ))) ∧
    (o.direction ≠ Direction.ASK → o.loss_price ≤ s.high_price + s.spread →
      (p.loss : ℚ) ≤ |(o.order_price - o.loss_price) / p.pip| →
      (lossFixed p s o).result = some (-(p.loss : ℚ))) := by
  constructor
  · intro hd hl habs
    rw [lossFixed_closes_ask p s o ho hd hl]
    show some (lossClamp p (round2 ((o.loss_price - o.order_price) / p.pip)))
      = some (-(p.loss : ℚ))
    rw [lossClamp_round2 p _ habs]
  · intro hd hl habs
    unfold lossFixed
    rw [ho]
    simp only [Option.isSome_none, Bool.false_eq_true, if_false, if_neg hd,
      if_pos hl]
    show some (lossClamp p (round2 ((o.order_price - o.loss_price) / p.pip)))
      = some (-(p.loss : ℚ))
    rw [lossClamp_round2 p _ habs]

/-- Witness for C4: a gap-through bar (stop 98, entry 100, pip 0.01, so the
raw result is -200 pips against a configured loss of 100) settles at
exactly -100. -/
theorem fx_c4_witness :
    sW4.low_price ≤ oW4.loss_price ∧
    (pW4.loss : ℚ) ≤ |(oW4.loss_price - oW4.order_price) / pW4.pip| ∧
    (lossFixed pW4 sW4 oW4).result = some (-(pW4.loss : ℚ)) :=
  ⟨by norm_num [sW4, oW4],
   by norm_num [pW4, pX3, oW4],
   (fx_c4 pW4 sW4 oW4 rfl).1 rfl (by norm_num [sW4, oW4])
     (by norm_num [pW4, pX3, oW4])⟩

/-! ### Claim C6: trailing-stop ratchet (corrected: the buy target includes
the bar spread) -/

theorem allClose_loss_price (p : Parameter) (s : Settlement) (o : Order) :
    (allClose p s o).loss_price = o.loss_price := by
  unfold allClose
  split <;> rfl

theorem allClose_direction (p : Parameter) (s : Settlement) (o : Order) :
    (allClose p s o).direction = o.direction := by
  unfold allClose
  split <;> rfl

theorem lossFixed_loss_price (p : Parameter) (s : Settlement) (o : Order) :
    (lossFixed p s o).loss_price = o.loss_price := by
  unfold lossFixed
  split_ifs <;> rfl

theorem lossFixed_direction (p : Parameter) (s : Settlement) (o : Order) :
    (lossFixed p s o).direction = o.direction := by
  unfold lossFixed
  split_ifs <;> rfl

theorem profitFixed_loss_price (p : Parameter) (s : Settlement) (o : Order) :
    (profitFixed p s o).loss_price = o.loss_price := by
  unfold profitFixed
  split_ifs <;> rfl

theorem profitFixed_direction (p : Parameter) (s : Settlement) (o : Order) :
    (profitFixed p s o).direction = o.direction := by
  unfold profitFixed
  split_ifs <;> rfl

theorem calcTrailStop_ask_mono (p : Parameter) (s : Settlement) (o : Order)
    (hd : o.direction = Direction.ASK) :
    o.loss_price ≤ (calcTrailStop p s o).loss_price := by
  unfold calcTrailStop
  split_ifs with h1 h2 h3 <;> simp_all <;> linarith

theorem calcTrailStop_bid_mono (p : Parameter) (s : Settlement) (o : Order)
    (hd : o.direction = Direction.BID) :
    (calcTrailStop p s o).loss_price ≤ o.loss_price := by
  unfold calcTrailStop
  split_ifs with h1 h2 h3 <;> simp_all <;> linarith

/-- Counterexample to C6: an open buy with stop 99 on a bar with high 100.1
and spread 0.003 (loss 100 pips, pip 0.01).  The claimed target
barHigh - loss * pip = 99.1 exceeds the current stop, yet the code sets the
stop to (barHigh + spread) - loss * pip = 99.103 (the value the repository's
own test for `__calc_trail_stop` expects), not to 99.1. -/
theorem fx_c6_counterexample :
    oX6.loss_price < sX6.high_price - (pX6.loss : ℚ) * pX6.pip ∧
    (calcTrailStop pX6 sX6 oX6).loss_price = 99103 / 1000 ∧
    (calcTrailStop pX6 sX6 oX6).loss_price ≠
      sX6.high_price - (pX6.loss : ℚ) * pX6.pip := by
  refine ⟨by norm_num [oX6, sX6, pX6], ?_, ?_⟩ <;>
    · simp [calcTrailStop, oX6, sX6, pX6]
      norm_num

/-- Claim C6 amended: with trailing enabled, an open buy position's stop is
set to (barHigh + spread) - loss * pip exactly when the current stop is
below that value and left unchanged otherwise, an open sell position's
stop is set to barLow + loss * pip exactly when the current stop is above
that value and left unchanged otherwise, and across any bar processing a
buy stop never decreases and a sell stop never increases. -/
theorem fx_c6_amended (p : Parameter) (forceAll : Bool) (s : Settlement)
    (o : Order) :
    (o.direction = Direction.ASK → o.result = none → p.trail_stop = true →
      (calcTrailStop p s o).loss_price =
        (if o.loss_price < s.high_price + s.spread - (p.loss : ℚ) * p.pip
         then s.high_price + s.spread - (p.loss : ℚ) * p.pip
         else o.loss_price)) ∧
    (o.direction = Direction.BID → o.result = none → p.trail_stop = true →
      (calcTrailStop p s o).loss_price =
        (if o.loss_price > s.low_price + (p.loss : ℚ) * p.pip
         then s.low_price + (p.loss : ℚ) * p.pip
         else o.loss_price)) ∧
    (o.direction = Direction.ASK →
      o.loss_price ≤ (processOrder p forceAll s o).loss_price) ∧
    (o.direction = Direction.BID →
      (processOrder p forceAll s o).loss_price ≤ o.loss_price) := by
  refine ⟨?_, ?_, ?_, ?_⟩
  · intro hd ho ht
    unfold calcTrailStop
    rw [ho]
    simp only [Option.isSome_none, Bool.false_eq_true, if_false, ht, hd]
    norm_num
    split_ifs <;> simp_all
  · intro hd ho ht
    unfold calcTrailStop
    rw [ho]
    simp only [Option.isSome_none, Bool.false_eq_true, if_false, ht, hd]
    norm_num
    split_ifs <;> simp_all
  · intro hd
    unfold processOrder
    set o1 : Order := if forceAll then allClose p s o else o with ho1
    have e1 : o1.loss_price = o.loss_price := by
      rw [ho1]
      split
      · exact allClose_loss_price p s o
      · rfl
    have d1 : o1.direction = Direction.ASK := by
      rw [ho1]
      split
      · rw [allClose_direction p s o, hd]
      · exact hd
    have e2 := lossFixed_loss_price p s o1
    have d2 : (lossFixed p s o1).direction = Direction.ASK := by
      rw [lossFixed_direction p s o1, d1]
    have e3 := profitFixed_loss_price p s (lossFixed p s o1)
    have d3 : (profitFixed p s (lossFixed p s o1)).direction =
        Direction.ASK := by
      rw [profitFixed_direction, d2]
    have h4 := calcTrailStop_ask_mono p s _ d3
    rw [e3, e2, e1] at h4
    exact h4
  · intro hd
    unfold processOrder
    set o1 : Order := if forceAll then allClose p s o else o with ho1
    have e1 : o1.loss_price = o.loss_price := by
      rw [ho1]
      split
      · exact allClose_loss_price p s o
      · rfl
    have d1 : o1.direction = Direction.BID := by
      rw [ho1]
      split
      · rw [allClose_direction p s o, hd]
      · exact hd
    have e2 := lossFixed_loss_price p s o1
    have d2 : (lossFixed p s o1).direction = Direction.BID := by
      rw [lossFixed_direction p s o1, d1]
    have e3 := profitFixed_loss_price p s (lossFixed p s o1)
    have d3 : (profitFixed p s (lossFixed p s o1)).direction =
        Direction.BID := by
      rw [profitFixed_direction, d2]
    have h4 := calcTrailStop_bid_mono p s _ d3
    rw [e3, e2, e1] at h4
    exact h4

/-- Witness for C6 amended: the concrete buy ratchet above lands exactly on
(barHigh + spread) - loss * pip = 99.103, the matching sell's stop ratchets
to barLow + loss * pip, and the buy stop does not decrease under
processing. -/
theorem fx_c6_witness :
    oX6.loss_price < sX6.high_price + sX6.spread - (pX6.loss : ℚ) * pX6.pip ∧
    (calcTrailStop pX6 sX6 oX6).loss_price =
      (if oX6.loss_price < sX6.high_price + sX6.spread -
            (pX6.loss : ℚ) * pX6.pip
       then sX6.high_price + sX6.spread - (pX6.loss : ℚ) * pX6.pip
       else oX6.loss_price) ∧
    (calcTrailStop pX6 sX6 oX6b).loss_price =
      (if oX6b.loss_price > sX6.low_price + (pX6.loss : ℚ) * pX6.pip
       then sX6.low_price + (pX6.loss : ℚ) * pX6.pip
       else oX6b.loss_price) ∧
    oX6.loss_price ≤ (processOrder pX6 false sX6 oX6).loss_price :=
  ⟨by norm_num [oX6, sX6, pX6],
   (fx_c6_amended pX6 false sX6 oX6).1 rfl rfl rfl,
   (fx_c6_amended pX6 false sX6 oX6b).2.1 rfl rfl rfl,
   (fx_c6_amended pX6 false sX6 oX6).2.2.1 rfl⟩

/-! ### Claim C5: position-count cap invariant -/

theorem settlementStep_ask_length (p : Parameter) (b : Bool) (c : Candle)
    (st : BookState) :
    (settlementStep p b c st).ask.length ≤ st.ask.length := by
  show ((settleList p b _ c.time st.ask).1).length ≤ st.ask.length
  unfold settleList
  calc ((st.ask.map (processOrder p b _)).filter
          (fun o => o.result.isNone)).length
      ≤ (st.ask.map (processOrder p b _)).length :=
        List.length_filter_le _ _
    _ = st.ask.length := List.length_map _ _

theorem settlementStep_bid_length (p : Parameter) (b : Bool) (c : Candle)
    (st : BookState) :
    (settlementStep p b c st).bid.length ≤ st.bid.length := by
  show ((settleList p b _ c.time st.bid).1).length ≤ st.bid.length
  unfold settleList
  calc ((st.bid.map (processOrder p b _)).filter
          (fun o => o.result.isNone)).length
      ≤ (st.bid.map (processOrder p b _)).length :=
        List.length_filter_le _ _
    _ = st.bid.length := List.length_map _ _

/-- The cap invariant preserved by one order placement. -/
theorem orderStep_cap (p : Parameter) (c : Candle) (dir : Direction)
    (st : BookState)
    (ha : st.ask.length ≤ p.position_count)
    (hb : st.bid.length ≤ p.position_count) :
    (orderStep p c dir st).ask.length ≤ p.position_count ∧
    (orderStep p c dir st).bid.length ≤ p.position_count := by
  unfold orderStep
  split_ifs with h1 h2
  · exact ⟨ha, hb⟩
  · constructor
    · have hlt : (ordersOf st dir).length < p.position_count := by omega
      rw [ordersOf, if_pos h2] at hlt
      simp only [List.length_append, List.length_cons, List.length_nil]
      omega
    · exact hb
  · constructor
    · exact ha
    · have hlt : (ordersOf st dir).length < p.position_count := by omega
      rw [ordersOf, if_neg h2] at hlt
      simp only [List.length_append, List.length_cons, List.length_nil]
      omega

/-- The cap invariant preserved by one loop iteration. -/
theorem barStep_cap (p : Parameter) (d : Candle → Direction) (c : Candle)
    (st : BookState)
    (ha : st.ask.length ≤ p.position_count)
    (hb : st.bid.length ≤ p.position_count) :
    (barStep p d st c).ask.length ≤ p.position_count ∧
    (barStep p d st c).bid.length ≤ p.position_count := by
  simp only [barStep]
  generalize (if p.trade_end_hour ≤ c.hour then true else false) = b0
  have ha1 : (settlementStep p b0 c st).ask.length ≤ p.position_count :=
    le_trans (settlementStep_ask_length p b0 c st) ha
  have hb1 : (settlementStep p b0 c st).bid.length ≤ p.position_count :=
    le_trans (settlementStep_bid_length p b0 c st) hb
  split_ifs with h1 h2 h3 h4 h5
  · exact ⟨ha1, hb1⟩
  · exact ⟨ha1, hb1⟩
  · have hin := orderStep_cap p c (d c) (settlementStep p b0 c st) ha1 hb1
    exact orderStep_cap p c Direction.BID _ hin.1 hin.2
  · have hin := orderStep_cap p c (d c) (settlementStep p b0 c st) ha1 hb1
    exact orderStep_cap p c Direction.ASK _ hin.1 hin.2
  · exact orderStep_cap p c (d c) (settlementStep p b0 c st) ha1 hb1
  · exact ⟨ha1, hb1⟩

theorem run_cap_aux (p : Parameter) (d : Candle → Direction) :
    ∀ (cs : List Candle) (st : BookState),
      st.ask.length ≤ p.position_count →
      st.bid.length ≤ p.position_count →
      (cs.foldl (barStep p d) st).ask.length ≤ p.position_count ∧
      (cs.foldl (barStep p d) st).bid.length ≤ p.position_count := by
  intro cs
  induction cs with
  | nil => intro st ha hb; exact ⟨ha, hb⟩
  | cons c rest ih =>
      intro st ha hb
      have h := barStep_cap p d c st ha hb
      exact ih (barStep p d st c) h.1 h.2

/-- Claim C5: at every point of a run (after any candle prefix, hence after
every iteration) each direction holds at most position_count open
positions, and an order placed when the direction's count already equals
the cap leaves the book unchanged. -/
theorem fx_c5 (p : Parameter) (d : Candle → Direction) (cs : List Candle)
    (dir : Direction) (c : Candle) :
    (ordersOf (runBacktest p d cs) dir).length ≤ p.position_count ∧
    ((ordersOf (runBacktest p d cs) dir).length = p.position_count →
      orderStep p c dir (runBacktest p d cs) = runBacktest p d cs) := by
  have h := run_cap_aux p d cs { ask := [], bid := [], settlements := [] }
    (by simp) (by simp)
  constructor
  · unfold ordersOf
    split
    · exact h.1
    · exact h.2
  · intro heq
    unfold orderStep
    rw [if_pos (le_of_eq heq.symm)]

/-- Witness for C5: after one bar that opens a buy position under cap 1,
the open count is at the cap and a further order in that direction is a
no-op. -/
theorem fx_c5_witness :
    (ordersOf (runBacktest pW5 dW5 [cW5]) Direction.ASK).length ≤
      pW5.position_count ∧
    ((ordersOf (runBacktest pW5 dW5 [cW5]) Direction.ASK).length =
        pW5.position_count →
      orderStep pW5 cW5 Direction.ASK (runBacktest pW5 dW5 [cW5]) =
        runBacktest pW5 dW5 [cW5]) :=
  fx_c5 pW5 dW5 [cW5] Direction.ASK cW5

/-! ### Claim C7: same-bar force-close and open (corrected: impossible) -/

/-- Counterexample to C7 (its negation): on any bar whose hour has reached
trade_end_hour — precisely the bars on which forced closure runs — the loop
body is exactly the forced settlement: the session gate
start ≤ hour < end is necessarily false, so no order can be placed on a
force-close bar, for any configuration, decision function, book and
candle. -/
theorem fx_c7_counterexample :
    ¬ ∃ (p : Parameter) (d : Candle → Direction) (st : BookState)
        (c : Candle),
      p.trade_end_hour ≤ c.hour ∧ barStep p d st c ≠ settlementStep p true c st := by
  rintro ⟨p, d, st, c, h1, h2⟩
  apply h2
  have hgate : (p.trade_start_hour ≤ c.hour ∧ c.hour < p.trade_end_hour) =
      False := by
    simp only [eq_iff_iff, iff_false]
    rintro ⟨_, hlt⟩
    omega
  simp only [barStep, h1, if_true, hgate, if_false, ite_self]

/-- Claim C7 amended: a single iteration of run() can both settle existing
open positions (here by the non-forced loss-fixed rule; settlement runs
before ordering, so orders opened this bar are not evaluated until the next
bar) and place new orders on that same bar; forced closure however never
coincides with order placement, since a bar hour at or past the session end
fails the session gate.  Concretely, bar 2 below settles the position
opened on bar 1 and opens a fresh one. -/
theorem fx_c7_amended :
    (runBacktest pA7 dA7 [cA71, cA72]).settlements.map
      (fun o => (o.order_time, o.settlement_time)) = [(1, some 2)] ∧
    (runBacktest pA7 dA7 [cA71, cA72]).ask.map (fun o => o.order_time) =
      [2] := by
  have hr : round2 (-100 : ℚ) = -100 := by
    unfold round2
    rw [rhe_int (-10000) _ (by norm_num)]
    norm_num
  have hdz : ¬ (Direction.ASK = Direction.ZERO) := by decide
  simp only [runBacktest, List.foldl_cons, List.foldl_nil]
  norm_num [barStep, settlementStep, barView, settleList, processOrder,
    lossFixed, profitFixed, calcTrailStop, allClose, orderStep, ordersOf,
    mkOrder, lossClamp, pA7, dA7, cA71, cA72, hr, hdz]

/-! ### Claim C9: output ordering (corrected: settlement order, not order
time) -/

/-- Counterexample to C9: two buy positions opened on bars 1 and 2 are both
stopped out on bar 3; the descending-index pop loop appends the later
position first, so the settlement history lists order times [2, 1] — not
sorted ascending by order time. -/
theorem fx_c9_counterexample :
    (runBacktest pX9 dX9 [cX91, cX92, cX93]).settlements.map
      (fun o => o.order_time) = [2, 1] ∧
    ¬ List.Pairwise (fun a b : Order => a.order_time ≤ b.order_time)
        (runBacktest pX9 dX9 [cX91, cX92, cX93]).settlements := by
  have hr : round2 (-100 : ℚ) = -100 := by
    unfold round2
    rw [rhe_int (-10000) _ (by norm_num)]
    norm_num
  have hdz : ¬ (Direction.ASK = Direction.ZERO) := by decide
  have hmap : (runBacktest pX9 dX9 [cX91, cX92, cX93]).settlements.map
      (fun o => o.order_time) = [2, 1] := by
    simp only [runBacktest, List.foldl_cons, List.foldl_nil]
    norm_num [barStep, settlementStep, barView, settleList, processOrder,
      lossFixed, profitFixed, calcTrailStop, allClose, orderStep, ordersOf,
      mkOrder, lossClamp, pX9, dX9, cX91, cX92, cX93, hr, hdz]
  refine ⟨hmap, ?_⟩
  intro hpair
  have h2 := List.Pairwise.map (fun o : Order => o.order_time)
    (fun a b h => h) hpair
  rw [hmap] at h2
  have h3 := (List.pairwise_cons.mp h2).1 1 (by simp)
  omega

theorem pairwise_of_mem {α : Type} {R : α → α → Prop} :
    ∀ l : List α, (∀ a ∈ l, ∀ b ∈ l, R a b) → l.Pairwise R := by
  intro l
  induction l with
  | nil => intro _; exact List.Pairwise.nil
  | cons a t ih =>
      intro h
      refine List.Pairwise.cons (fun b hb => h a ?_ b ?_) (ih ?_)
      · exact List.mem_cons_self a t
      · exact List.mem_cons_of_mem a hb
      · intro x hx y hy
        exact h x (List.mem_cons_of_mem a hx) y (List.mem_cons_of_mem a hy)

theorem orderStep_settlements (p : Parameter) (c : Candle) (dir : Direction)
    (st : BookState) : (orderStep p c dir st).settlements = st.settlements := by
  unfold orderStep
  split_ifs <;> rfl

theorem settlementStep_settlements (p : Parameter) (b : Bool) (c : Candle)
    (st : BookState) :
    ∃ l, (settlementStep p b c st).settlements = st.settlements ++ l ∧
      ∀ o ∈ l, o.settlement_time = some c.time := by
  refine ⟨(settleList p b (barView c) c.time st.ask).2 ++
    (settleList p b (barView c) c.time st.bid).2, ?_, ?_⟩
  · show st.settlements ++ _ ++ _ = _
    rw [List.append_assoc]
  · intro o ho
    rcases List.mem_append.mp ho with h | h <;>
    · unfold settleList at h
      rcases List.mem_map.mp h with ⟨a, _, rfl⟩
      rfl

theorem barStep_settlements (p : Parameter) (d : Candle → Direction)
    (st : BookState) (c : Candle) :
    ∃ l, (barStep p d st c).settlements = st.settlements ++ l ∧
      ∀ o ∈ l, o.settlement_time = some c.time := by
  simp only [barStep]
  generalize (if p.trade_end_hour ≤ c.hour then true else false) = b0
  obtain ⟨l, hl, hall⟩ := settlementStep_settlements p b0 c st
  refine ⟨l, ?_, hall⟩
  split_ifs <;> (try simp only [orderStep_settlements]) <;> exact hl

theorem run_sorted_aux (p : Parameter) (d : Candle → Direction) :
    ∀ (cs : List Candle) (st : BookState),
      List.Pairwise (fun a b : Candle => a.time ≤ b.time) cs →
      List.Pairwise (fun a b : Order => settleTimeOf a ≤ settleTimeOf b)
        st.settlements →
      (∀ o ∈ st.settlements, ∀ c ∈ cs, settleTimeOf o ≤ c.time) →
      List.Pairwise (fun a b : Order => settleTimeOf a ≤ settleTimeOf b)
        ((cs.foldl (barStep p d) st).settlements) := by
  intro cs
  induction cs with
  | nil => intro st _ hst _; exact hst
  | cons c rest ih =>
      intro st hcs hst hbound
      obtain ⟨l, hl, hall⟩ := barStep_settlements p d st c
      have hcs1 := List.pairwise_cons.mp hcs
      show List.Pairwise _ ((rest.foldl (barStep p d) (barStep p d st c)).settlements)
      apply ih (barStep p d st c) hcs1.2
      · rw [hl]
        rw [List.pairwise_append]
        refine ⟨hst, ?_, ?_⟩
        · apply pairwise_of_mem
          intro a ha b hb
          simp [settleTimeOf, hall a ha, hall b hb]
        · intro a ha b hb
          have hbnd := hbound a ha c (List.mem_cons_self c rest)
          simp only [settleTimeOf, hall b hb, Option.getD_some]
          exact hbnd
      · intro o ho c2 hc2
        rw [hl] at ho
        rcases List.mem_append.mp ho with h | h
        · exact hbound o h c2 (List.mem_cons_of_mem c hc2)
        · simp only [settleTimeOf, hall o h, Option.getD_some]
          exact hcs1.1 c2 hc2

/-- Claim C9 amended: for a candle series given in ascending time order the
settlement history that run() exposes (the rows of result_df) is sorted
ascending by settlement time — rows are appended bar by bar, each stamped
with the settling bar's time — not by order time. -/
theorem fx_c9_amended (p : Parameter) (d : Candle → Direction)
    (cs : List Candle)
    (h : List.Pairwise (fun a b : Candle => a.time ≤ b.time) cs) :
    List.Pairwise (fun a b : Order => settleTimeOf a ≤ settleTimeOf b)
      (runBacktest p d cs).settlements := by
  apply run_sorted_aux p d cs { ask := [], bid := [], settlements := [] } h
  · exact List.Pairwise.nil
  · intro o ho
    simp at ho

/-- Witness for C9 amended: the three-bar counterexample series is itself
time-sorted, so its settlement history is sorted by settlement time. -/
theorem fx_c9_witness :
    List.Pairwise (fun a b : Order => settleTimeOf a ≤ settleTimeOf b)
      (runBacktest pX9 dX9 [cX91, cX92, cX93]).settlements :=
  fx_c9_amended pX9 dX9 [cX91, cX92, cX93]
    (by simp [List.pairwise_cons, cX91, cX92, cX93])

/-! ### The Performance aggregator (`backtest.Performance`, lines 418-518)

A settlement-history row as the aggregator reads it: the calendar fields
derived from `order_time` in `Performance.__init__` (lines 431-435) and the
`result` column.  `Performance.performance` counts wins as `result >= 0`
and losses as `result < 0` (lines 443-445), computes the win rate as
`round((profit_count / total_count) * 100, 0)` (line 449) with numpy
integer true-division — which yields NaN, modelled as `none` of `npDiv`,
when `total_count` is 0 — and `Performance.__detail` applies the same
counting per group (lines 484-503). -/

/-! ### Claim C8: win rate on zero trades (code bug) -/

/-- Claim C8 evaluated at the failing input: on an empty settlement history
the win-rate denominator `total_count` is 0 and the unguarded division of
line 449 is numpy's 0 / 0, so `profit_rate` is NaN (`none` of `npDiv`,
propagated through `round`), contradicting the requirement that the
aggregator report an explicit undefined/absent value and never emit NaN. -/
theorem fx_c8 : total_count [] = 0 ∧ profit_rate [] = none := by
  constructor
  · rfl
  · show (npDiv ((profit_count [] : ℕ) : ℚ) ((total_count [] : ℕ) : ℚ)).map
      (fun q => round0 (q * 100)) = none
    norm_num [npDiv, profit_count, total_count, loss_count]

/-! ### Claim C10: zero result counts as a win -/

/-- Claim C10: a settled trade whose result is exactly 0 satisfies the win
filter `result >= 0` and not the loss filter `result < 0`, so appending it
increments `profit_count` and leaves `loss_count` unchanged — in the totals
and in the trade's own bucket for every grouping key (in particular the
year, month, week and day groupings). -/
theorem fx_c10 (h : List Trade) (t : Trade) (ht : t.result = 0) :
    profit_count (h ++ [t]) = profit_count h + 1 ∧
    loss_count (h ++ [t]) = loss_count h ∧
    (∀ key : Trade → List ℕ,
      detail_profit_count key (key t) (h ++ [t]) =
        detail_profit_count key (key t) h + 1 ∧
      detail_loss_count key (key t) (h ++ [t]) =
        detail_loss_count key (key t) h) := by
  have hwin : decide (t.result ≥ 0) = true := by
    simp [ht]
  have hloss : decide (t.result < 0) = false := by
    simp [ht]
  refine ⟨?_, ?_, ?_⟩
  · unfold profit_count
    rw [List.filter_append]
    simp [hwin]
  · unfold loss_count
    rw [List.filter_append]
    simp [hloss]
  · intro key
    constructor
    · unfold detail_profit_count bucket profit_count
      rw [List.filter_append, List.filter_append]
      simp [hwin]
    · unfold detail_loss_count bucket loss_count
      rw [List.filter_append, List.filter_append]
      simp [hloss]

/-- Witness for C10: a single zero-result trade in January 2024 is counted
as a win in the totals and in its day bucket. -/
theorem fx_c10_witness :
    profit_count ([] ++ [tW10]) = profit_count [] + 1 ∧
    loss_count ([] ++ [tW10]) = loss_count [] ∧
    (∀ key : Trade → List ℕ,
      detail_profit_count key (key tW10) ([] ++ [tW10]) =
        detail_profit_count key (key tW10) [] + 1 ∧
      detail_loss_count key (key tW10) ([] ++ [tW10]) =
        detail_loss_count key (key tW10) []) :=
  fx_c10 [] tW10 rfl

end FxLibrary
